import Mathlib

/-!
Shallow embedding of `follow_bluesky_users.py`, a batch script that
authenticates against a remote API, resolves each input handle to an
account id, and issues a follow write per resolved handle.

Network effects are modelled by explicit oracles: each retry loop consumes
a list of `Response`s (one per attempt), and each call to `authenticate`
consumes one `AuthResponse`.  Side effects (sleeps, HTTP requests, the
re-authentication call) are recorded as an explicit `Event` trace.
-/

/-- Configuration constant (source line 44): delay between items, seconds. -/
def REQUEST_DELAY : Nat := 1

/-- Configuration constant (source line 47): suffix appended to each handle. -/
def DOMAIN_SUFFIX : String := ".bsky.social"

/-- Configuration constant (source line 50): number of items before a long pause. -/
def REQUEST_LIMIT : Nat := 3000

/-- Configuration constant (source line 51): long pause duration, seconds. -/
def PAUSE_DURATION : Nat := 600

/-- A remote response as the script observes it: HTTP status code, the
optional `did` field of the JSON body (`data.get('did', None)`, source
line 118), and the raw body text (`response.text`). -/
structure Response where
  status_code : Nat
  did : Option String
  text : String
  deriving DecidableEq

/-- A response to the session-creation endpoint: status code and the
`accessJwt` / `did` fields of its JSON body (source lines 77-79). -/
structure AuthResponse where
  status_code : Nat
  accessJwt : String
  did : String
  text : String
  deriving DecidableEq

/-- The request headers dict built in `main` (source lines 170-173). -/
structure Headers where
  authorization : String
  contentType : String
  deriving DecidableEq

/-- The follow-record payload built in `follow_user` (source lines 138-146). -/
structure FollowPayload where
  collection : String
  repo : String
  subject : String
  createdAt : String
  recordType : String
  deriving DecidableEq

/-- Observable side effects of a run, in order of occurrence. -/
inductive Event where
  | resolveRequest (headers : Headers)
  | followRequest (headers : Headers) (payload : FollowPayload)
  | authCall
  | sleep (duration : Nat)
  deriving DecidableEq

/-- One row of the results list (source lines 203-224). -/
structure OutcomeRecord where
  twitterHandle : String
  blueskyHandle : String
  followed : Bool
  message : String
  deriving DecidableEq

/-- `authenticate(username, password)` (source lines 57-87): on a 200
response returns the `(access_token, user_did)` tuple; on any other
status the script prints and calls `exit()`, modelled as `none`. -/
def authenticate (resp : AuthResponse) : Option (String × String) :=
  if resp.status_code = 200 then some (resp.accessJwt, resp.did) else none

/-- Result of one of the unbounded retry loops: `done` carries the loop's
return value with the headers, the events emitted, and the unconsumed
auth oracle; `exited` is process termination via `exit()` inside a failed
re-authentication; `outOfResponses` means the oracle ran out while the
loop was still retrying. -/
inductive LoopResult (α : Type) where
  | done (value : α) (headers : Headers) (events : List Event) (auths : List AuthResponse)
  | exited (events : List Event)
  | outOfResponses (events : List Event)
  deriving DecidableEq

/-- Prefix the event trace of a `LoopResult`. -/
def LoopResult.prependEvents (pre : List Event) : LoopResult α → LoopResult α
  | .done v h evs auths => .done v h (pre ++ evs) auths
  | .exited evs => .exited (pre ++ evs)
  | .outOfResponses evs => .outOfResponses (pre ++ evs)

/-- The event trace of a `LoopResult`. -/
def LoopResult.events : LoopResult α → List Event
  | .done _ _ evs _ => evs
  | .exited evs => evs
  | .outOfResponses evs => evs

/-- `resolve_handle(handle, headers)` (source lines 89-122): an unbounded
`while True` loop. 429 sleeps `PAUSE_DURATION` and retries; 401 calls
`authenticate` and assigns its first tuple component to the Authorization
header (`headers['Authorization'], _ = authenticate(...)`, source line
113 — note: the raw token, with no `Bearer` prefix, and the fresh did is
discarded); 200 returns `data.get('did', None)`; any other status returns
`None`. -/
def resolve_handle : Headers → List Response → List AuthResponse → LoopResult (Option String)
  | _, [], _ => .outOfResponses []
  | headers, r :: rs, auths =>
    if r.status_code = 429 then
      (resolve_handle headers rs auths).prependEvents
        [Event.resolveRequest headers, Event.sleep PAUSE_DURATION]
    else if r.status_code = 401 then
      match auths with
      | [] => .outOfResponses [Event.resolveRequest headers, Event.authCall]
      | a :: rest =>
        match authenticate a with
        | some (tok, _) =>
          (resolve_handle { headers with authorization := tok } rs rest).prependEvents
            [Event.resolveRequest headers, Event.authCall]
        | none => .exited [Event.resolveRequest headers, Event.authCall]
    else if r.status_code = 200 then
      .done r.did headers [Event.resolveRequest headers] auths
    else
      .done none headers [Event.resolveRequest headers] auths

/-- The payload dict built in `follow_user` (source lines 138-146). -/
def make_follow_payload (session_did target_did timestamp : String) : FollowPayload :=
  { collection := "app.bsky.graph.follow"
    repo := session_did
    subject := target_did
    createdAt := timestamp
    recordType := "app.bsky.graph.follow" }

/-- The `while True` loop of `follow_user` (source lines 148-163): 429
sleeps and retries, 401 re-authenticates exactly as in `resolve_handle`
(source line 159, same raw-token assignment), and any other status
returns the response object itself. -/
def follow_user_loop (follow_payload : FollowPayload) :
    Headers → List Response → List AuthResponse → LoopResult Response
  | _, [], _ => .outOfResponses []
  | headers, r :: rs, auths =>
    if r.status_code = 429 then
      (follow_user_loop follow_payload headers rs auths).prependEvents
        [Event.followRequest headers follow_payload, Event.sleep PAUSE_DURATION]
    else if r.status_code = 401 then
      match auths with
      | [] => .outOfResponses [Event.followRequest headers follow_payload, Event.authCall]
      | a :: rest =>
        match authenticate a with
        | some (tok, _) =>
          (follow_user_loop follow_payload { headers with authorization := tok } rs rest).prependEvents
            [Event.followRequest headers follow_payload, Event.authCall]
        | none => .exited [Event.followRequest headers follow_payload, Event.authCall]
    else
      .done r headers [Event.followRequest headers follow_payload] auths

/-- `follow_user(session_did, target_did, headers)` (source lines 124-163):
builds the follow payload stamped with the UTC timestamp (modelled as an
explicit parameter) and runs the retry loop. -/
def follow_user (session_did target_did timestamp : String) (headers : Headers)
    (responses : List Response) (auths : List AuthResponse) : LoopResult Response :=
  follow_user_loop (make_follow_payload session_did target_did timestamp) headers responses auths

/-- Python truthiness of `resolve_handle`'s return value (`if target_did:`,
source line 199): `None` and the empty string are falsy. -/
def truthy : Option String → Bool
  | none => false
  | some s => s != ""

/-- The response oracles for one item of the batch: one attempt stream for
the resolve loop and one for the follow loop. -/
structure ItemOracle where
  resolveResponses : List Response
  followResponses : List Response
  deriving DecidableEq

/-- Result of one iteration of the batch loop body. -/
inductive ItemResult where
  | ok (record : OutcomeRecord) (headers : Headers) (auths : List AuthResponse)
      (events : List Event)
  | fail (events : List Event)
  deriving DecidableEq

/-- The body of the `for i, handle in enumerate(handles, start=1)` loop
(source lines 191-224), up to but not including the pacing sleeps:
derive the bluesky handle, resolve it, and either follow (classifying the
final response: 200 yields `Followed=True` / `'Success'`, anything else
`Followed=False` with `response.text`) or record a miss with an empty
bluesky-handle field and message `'No matching Bluesky account'`. -/
def process_item (session_did timestamp : String) (headers : Headers) (handle : String)
    (orc : ItemOracle) (auths : List AuthResponse) : ItemResult :=
  let bluesky_handle := handle ++ DOMAIN_SUFFIX
  match resolve_handle headers orc.resolveResponses auths with
  | .exited evs1 => .fail evs1
  | .outOfResponses evs1 => .fail evs1
  | .done target_did headers1 evs1 auths1 =>
    if truthy target_did then
      match follow_user session_did (target_did.getD "") timestamp headers1
          orc.followResponses auths1 with
      | .exited evs2 => .fail (evs1 ++ evs2)
      | .outOfResponses evs2 => .fail (evs1 ++ evs2)
      | .done resp headers2 evs2 auths2 =>
        if resp.status_code = 200 then
          .ok ⟨handle, bluesky_handle, true, "Success"⟩ headers2 auths2 (evs1 ++ evs2)
        else
          .ok ⟨handle, bluesky_handle, false, resp.text⟩ headers2 auths2 (evs1 ++ evs2)
    else
      .ok ⟨handle, "", false, "No matching Bluesky account"⟩ headers1 auths1 evs1

/-- The pacing sleeps performed after item `i` (source lines 226-232):
always `time.sleep(REQUEST_DELAY)`, and additionally
`time.sleep(PAUSE_DURATION)` when `i % REQUEST_LIMIT == 0`. -/
def pacing_events (i : Nat) : List Event :=
  [Event.sleep REQUEST_DELAY] ++
    (if i % REQUEST_LIMIT = 0 then [Event.sleep PAUSE_DURATION] else [])

/-- Result of a whole run: `completed` hands the full results list to the
sink; `authFailed` is `exit()` during the initial authentication (no
results produced); `aborted` is a mid-run `exit()` or oracle exhaustion. -/
inductive MainResult where
  | completed (results : List OutcomeRecord) (events : List Event)
  | authFailed
  | aborted (results : List OutcomeRecord) (events : List Event)
  deriving DecidableEq

/-- The outcome records a run produced. -/
def MainResult.outcomes : MainResult → List OutcomeRecord
  | .completed rs _ => rs
  | .authFailed => []
  | .aborted rs _ => rs

/-- The per-item loop of `main` (source lines 191-232), carrying the
1-based index `i`, the accumulated results list, and the event trace. -/
def process_items (session_did timestamp : String) :
    Headers → List (String × ItemOracle) → List AuthResponse → Nat →
    List OutcomeRecord → List Event → MainResult
  | _, [], _, _, results, events => .completed results events
  | headers, (handle, orc) :: rest, auths, i, results, events =>
    match process_item session_did timestamp headers handle orc auths with
    | .fail evs => .aborted results (events ++ evs)
    | .ok rec headers1 auths1 evs =>
      process_items session_did timestamp headers1 rest auths1 (i + 1)
        (results ++ [rec]) (events ++ evs ++ pacing_events i)

namespace Script

/-- The `main()` function (source lines 165-237): initial authentication
(non-200 is `exit()` before any outcome exists), then headers are built
with `'Bearer ' + access_token`, and the batch loop runs starting at
index 1. The input list and the per-item response oracles are zipped
together. -/
def main (initialAuth : AuthResponse) (timestamp : String)
    (items : List (String × ItemOracle)) (auths : List AuthResponse) : MainResult :=
  match authenticate initialAuth with
  | none => .authFailed
  | some (access_token, session_did) =>
    process_items session_did timestamp
      { authorization := "Bearer " ++ access_token, contentType := "application/json" }
      items auths 1 [] []

end Script

/-! ## Test fixtures: concrete responses used to instantiate the theorems -/

/-- Headers as built after a successful initial authentication with token `tok1`. -/
def sampleHeaders : Headers := ⟨"Bearer tok1", "application/json"⟩

/-- A successful resolve response whose body carries the given did. -/
def ok200 (d : String) : Response := ⟨200, some d, "ok"⟩

/-- A successful follow-write response. -/
def created200 : Response := ⟨200, none, "created"⟩

/-- A hard-failure response. -/
def notFound400 : Response := ⟨400, none, "nf"⟩

/-- A rate-limit response. -/
def limit429 : Response := ⟨429, none, "rate"⟩

/-- An expired-session response. -/
def expired401 : Response := ⟨401, none, "expired"⟩

/-- A successful initial authentication response. -/
def authOK : AuthResponse := ⟨200, "tok1", "did1", "ok"⟩

/-- A successful re-authentication response with a fresh token and did. -/
def reauthOK : AuthResponse := ⟨200, "tok2", "did9", "ok"⟩

/-- A failed authentication response. -/
def authBad : AuthResponse := ⟨403, "", "", "bad"⟩

/-! ## Helper lemmas -/

/-- Whether an event is a follow-write HTTP request. -/
def Event.isFollowRequest : Event → Bool
  | .followRequest _ _ => true
  | _ => false

lemma resolve_handle_cons (headers : Headers) (r : Response) (rs : List Response)
    (auths : List AuthResponse) :
    resolve_handle headers (r :: rs) auths =
      if r.status_code = 429 then
        (resolve_handle headers rs auths).prependEvents
          [Event.resolveRequest headers, Event.sleep PAUSE_DURATION]
      else if r.status_code = 401 then
        match auths with
        | [] => .outOfResponses [Event.resolveRequest headers, Event.authCall]
        | a :: rest =>
          match authenticate a with
          | some (tok, _) =>
            (resolve_handle { headers with authorization := tok } rs rest).prependEvents
              [Event.resolveRequest headers, Event.authCall]
          | none => .exited [Event.resolveRequest headers, Event.authCall]
      else if r.status_code = 200 then
        .done r.did headers [Event.resolveRequest headers] auths
      else
        .done none headers [Event.resolveRequest headers] auths := rfl

lemma follow_user_loop_cons (payload : FollowPayload) (headers : Headers) (r : Response)
    (rs : List Response) (auths : List AuthResponse) :
    follow_user_loop payload headers (r :: rs) auths =
      if r.status_code = 429 then
        (follow_user_loop payload headers rs auths).prependEvents
          [Event.followRequest headers payload, Event.sleep PAUSE_DURATION]
      else if r.status_code = 401 then
        match auths with
        | [] => .outOfResponses [Event.followRequest headers payload, Event.authCall]
        | a :: rest =>
          match authenticate a with
          | some (tok, _) =>
            (follow_user_loop payload { headers with authorization := tok } rs rest).prependEvents
              [Event.followRequest headers payload, Event.authCall]
          | none => .exited [Event.followRequest headers payload, Event.authCall]
      else
        .done r headers [Event.followRequest headers payload] auths := rfl

lemma prependEvents_done (pre : List Event) (v : α) (h : Headers)
    (evs : List Event) (auths : List AuthResponse) :
    LoopResult.prependEvents pre (.done v h evs auths) = .done v h (pre ++ evs) auths := rfl

lemma prependEvents_exited (pre evs : List Event) :
    LoopResult.prependEvents (α := α) pre (.exited evs) = .exited (pre ++ evs) := rfl

lemma prependEvents_outOfResponses (pre evs : List Event) :
    LoopResult.prependEvents (α := α) pre (.outOfResponses evs) = .outOfResponses (pre ++ evs) := rfl

lemma prependEvents_nil (x : LoopResult α) : LoopResult.prependEvents [] x = x := by
  cases x <;> rfl

lemma prependEvents_prependEvents (pre1 pre2 : List Event) (x : LoopResult α) :
    LoopResult.prependEvents pre1 (LoopResult.prependEvents pre2 x) =
      LoopResult.prependEvents (pre1 ++ pre2) x := by
  cases x <;> simp [LoopResult.prependEvents]

lemma events_prependEvents (pre : List Event) (x : LoopResult α) :
    (LoopResult.prependEvents pre x).events = pre ++ x.events := by
  cases x <;> rfl

/-- Every `ok` outcome of the loop body carries the item's own handle in the
`Twitter Handle` field. -/
lemma process_item_ok_twitterHandle (sdid ts : String) (headers : Headers) (handle : String)
    (orc : ItemOracle) (auths : List AuthResponse) (rec : OutcomeRecord) (h1 : Headers)
    (a1 : List AuthResponse) (evs : List Event)
    (h : process_item sdid ts headers handle orc auths = .ok rec h1 a1 evs) :
    rec.twitterHandle = handle := by
  unfold process_item at h
  repeat' split at h
  all_goals simp_all
  all_goals exact congrArg OutcomeRecord.twitterHandle h.1.symm

/-- A completed tail of the batch loop appends one record per remaining item,
in order, each carrying its item's handle. -/
lemma process_items_completed (session_did ts : String) :
    ∀ (items : List (String × ItemOracle)) (headers : Headers) (auths : List AuthResponse)
      (i : Nat) (results : List OutcomeRecord) (events : List Event)
      (res : List OutcomeRecord) (evts : List Event),
      process_items session_did ts headers items auths i results events = .completed res evts →
      ∃ newRecs : List OutcomeRecord, res = results ++ newRecs ∧
        newRecs.length = items.length ∧
        ∀ j, (newRecs.get? j).map OutcomeRecord.twitterHandle = (items.get? j).map Prod.fst := by
  intro items
  induction items with
  | nil =>
    intro headers auths i results events res evts h
    simp only [process_items, MainResult.completed.injEq] at h
    exact ⟨[], by simp [h.1.symm], by simp, by simp⟩
  | cons item rest ih =>
    intro headers auths i results events res evts h
    obtain ⟨handle, orc⟩ := item
    rw [process_items] at h
    cases hpi : process_item session_did ts headers handle orc auths with
    | fail evs => rw [hpi] at h; simp at h
    | ok rec headers1 auths1 evs =>
      rw [hpi] at h
      obtain ⟨newRecs, hres, hlen, hget⟩ :=
        ih headers1 auths1 (i + 1) (results ++ [rec]) (events ++ evs ++ pacing_events i) res evts h
      refine ⟨rec :: newRecs, by simp [hres], by simp [hlen], ?_⟩
      intro j
      cases j with
      | zero =>
        simp only [List.get?, Option.map_some]
        exact congrArg some
          (process_item_ok_twitterHandle session_did ts headers handle orc auths rec
            headers1 auths1 evs hpi)
      | succ j => simpa using hget j

/-! ## C1 -/

/-- C1: a run of the batch loop that completes produces exactly one outcome
record per source record, in input order, with positional correspondence:
record `j` carries the handle of input row `j`. -/
theorem C1_completed_run_one_outcome_per_input
    (initialAuth : AuthResponse) (ts : String) (items : List (String × ItemOracle))
    (auths : List AuthResponse) (res : List OutcomeRecord) (evts : List Event)
    (h : Script.main initialAuth ts items auths = .completed res evts) :
    res.length = items.length ∧
    ∀ j, (res.get? j).map OutcomeRecord.twitterHandle = (items.get? j).map Prod.fst := by
  unfold Script.main at h
  cases ha : authenticate initialAuth with
  | none => rw [ha] at h; simp at h
  | some pair =>
    obtain ⟨tok, sdid⟩ := pair
    rw [ha] at h
    obtain ⟨newRecs, hres, hlen, hget⟩ :=
      process_items_completed sdid ts items
        ⟨"Bearer " ++ tok, "application/json"⟩ auths 1 [] [] res evts h
    subst hres
    refine ⟨by simpa using hlen, fun j => by simpa using hget j⟩

/-- Witness for C1: a concrete one-item run that completes with exactly one
record, whose handle matches the input row. -/
theorem C1_completed_run_one_outcome_per_input_witness :
    ([(⟨"alice", "alice.bsky.social", true, "Success"⟩ : OutcomeRecord)]).length =
      ([("alice", (⟨[ok200 "did:t"], [created200]⟩ : ItemOracle))]).length ∧
    ∀ j, (([(⟨"alice", "alice.bsky.social", true, "Success"⟩ : OutcomeRecord)]).get? j).map
        OutcomeRecord.twitterHandle =
      (([("alice", (⟨[ok200 "did:t"], [created200]⟩ : ItemOracle))]).get? j).map Prod.fst :=
  C1_completed_run_one_outcome_per_input authOK "ts"
    [("alice", ⟨[ok200 "did:t"], [created200]⟩)] []
    [⟨"alice", "alice.bsky.social", true, "Success"⟩]
    [Event.resolveRequest sampleHeaders,
     Event.followRequest sampleHeaders (make_follow_payload "did1" "did:t" "ts"),
     Event.sleep 1]
    (by decide)

/-! ## C2 -/

/-- A prefix of `n` rate-limit responses is absorbed by the resolve loop:
each one adds a single fixed-duration pause, the headers are untouched,
and the loop then proceeds against the remaining responses. -/
lemma resolve_handle_absorbs_429 (r : Response) (h429 : r.status_code = 429)
    (headers : Headers) (rest : List Response) (auths : List AuthResponse) :
    ∀ n, resolve_handle headers (List.replicate n r ++ rest) auths =
      (resolve_handle headers rest auths).prependEvents
        (List.replicate n [Event.resolveRequest headers, Event.sleep PAUSE_DURATION]).flatten := by
  intro n
  induction n with
  | zero => simp [prependEvents_nil]
  | succ n ihn =>
    rw [List.replicate_succ, List.cons_append, resolve_handle_cons]
    simp [h429, ihn, prependEvents_prependEvents, List.replicate_succ, List.flatten_cons]

/-- Same absorption for the follow loop. -/
lemma follow_user_loop_absorbs_429 (payload : FollowPayload) (r : Response)
    (h429 : r.status_code = 429) (headers : Headers) (rest : List Response)
    (auths : List AuthResponse) :
    ∀ n, follow_user_loop payload headers (List.replicate n r ++ rest) auths =
      (follow_user_loop payload headers rest auths).prependEvents
        (List.replicate n [Event.followRequest headers payload,
          Event.sleep PAUSE_DURATION]).flatten := by
  intro n
  induction n with
  | zero => simp [prependEvents_nil]
  | succ n ihn =>
    rw [List.replicate_succ, List.cons_append, follow_user_loop_cons]
    simp [h429, ihn, prependEvents_prependEvents, List.replicate_succ, List.flatten_cons]

/-- C2: in both retry loops, the response sequence `[429, 429, 200]` causes
exactly two pauses, both of the fixed `PAUSE_DURATION`, and the loop then
terminates on the 200 response (the follow loop returns the response
itself; the resolve loop returns its extracted did field); more generally
any number `n` of consecutive 429s is absorbed with exactly `n` such
pauses — the loop never gives up. -/
theorem C2_rate_limit_two_pauses_then_success (r s : Response) (payload : FollowPayload)
    (headers : Headers) (auths : List AuthResponse)
    (h429 : r.status_code = 429) (h200 : s.status_code = 200) :
    resolve_handle headers [r, r, s] auths =
      .done s.did headers
        [Event.resolveRequest headers, Event.sleep PAUSE_DURATION,
         Event.resolveRequest headers, Event.sleep PAUSE_DURATION,
         Event.resolveRequest headers] auths ∧
    follow_user_loop payload headers [r, r, s] auths =
      .done s headers
        [Event.followRequest headers payload, Event.sleep PAUSE_DURATION,
         Event.followRequest headers payload, Event.sleep PAUSE_DURATION,
         Event.followRequest headers payload] auths ∧
    (∀ n, resolve_handle headers (List.replicate n r ++ [s]) auths =
      .done s.did headers
        ((List.replicate n [Event.resolveRequest headers, Event.sleep PAUSE_DURATION]).flatten ++
          [Event.resolveRequest headers]) auths) ∧
    (∀ n, follow_user_loop payload headers (List.replicate n r ++ [s]) auths =
      .done s headers
        ((List.replicate n [Event.followRequest headers payload,
            Event.sleep PAUSE_DURATION]).flatten ++
          [Event.followRequest headers payload]) auths) := by
  have hbase1 : resolve_handle headers [s] auths =
      .done s.did headers [Event.resolveRequest headers] auths := by
    rw [resolve_handle_cons]
    simp [h200]
  have hbase2 : follow_user_loop payload headers [s] auths =
      .done s headers [Event.followRequest headers payload] auths := by
    rw [follow_user_loop_cons]
    simp [h200]
  have hgen1 := fun n =>
    (resolve_handle_absorbs_429 r h429 headers [s] auths n).trans
      (by rw [hbase1, prependEvents_done])
  have hgen2 := fun n =>
    (follow_user_loop_absorbs_429 payload r h429 headers [s] auths n).trans
      (by rw [hbase2, prependEvents_done])
  refine ⟨?_, ?_, hgen1, hgen2⟩
  · have := hgen1 2
    simpa [List.replicate_succ] using this
  · have := hgen2 2
    simpa [List.replicate_succ] using this

/-- Witness for C2: the two-pause equations at concrete responses. -/
theorem C2_rate_limit_two_pauses_then_success_witness :
    resolve_handle sampleHeaders [limit429, limit429, ok200 "did:1"] [] =
      .done (ok200 "did:1").did sampleHeaders
        [Event.resolveRequest sampleHeaders, Event.sleep PAUSE_DURATION,
         Event.resolveRequest sampleHeaders, Event.sleep PAUSE_DURATION,
         Event.resolveRequest sampleHeaders] [] ∧
    follow_user_loop (make_follow_payload "did1" "did:1" "ts") sampleHeaders
        [limit429, limit429, ok200 "did:1"] [] =
      .done (ok200 "did:1") sampleHeaders
        [Event.followRequest sampleHeaders (make_follow_payload "did1" "did:1" "ts"),
         Event.sleep PAUSE_DURATION,
         Event.followRequest sampleHeaders (make_follow_payload "did1" "did:1" "ts"),
         Event.sleep PAUSE_DURATION,
         Event.followRequest sampleHeaders (make_follow_payload "did1" "did:1" "ts")] [] :=
  ⟨(C2_rate_limit_two_pauses_then_success limit429 (ok200 "did:1")
      (make_follow_payload "did1" "did:1" "ts") sampleHeaders [] rfl rfl).1,
   (C2_rate_limit_two_pauses_then_success limit429 (ok200 "did:1")
      (make_follow_payload "did1" "did:1" "ts") sampleHeaders [] rfl rfl).2.1⟩

/-! ## C3 -/

/-- C3: in both retry loops, the response sequence `[401, r]` with `r`
neither 429 nor 401 invokes the authenticator exactly once — the event
trace contains a single `authCall` and no sleep — and then returns `r` to
the caller (the follow loop returns the response itself; the resolve loop
returns the value it extracts from `r`). -/
theorem C3_reauth_once_no_pause (r401 final : Response) (a : AuthResponse)
    (payload : FollowPayload) (headers : Headers) (auths : List AuthResponse)
    (h401 : r401.status_code = 401) (ha : a.status_code = 200)
    (hn429 : final.status_code ≠ 429) (hn401 : final.status_code ≠ 401) :
    follow_user_loop payload headers [r401, final] (a :: auths) =
      .done final { headers with authorization := a.accessJwt }
        [Event.followRequest headers payload, Event.authCall,
         Event.followRequest { headers with authorization := a.accessJwt } payload] auths ∧
    resolve_handle headers [r401, final] (a :: auths) =
      .done (if final.status_code = 200 then final.did else none)
        { headers with authorization := a.accessJwt }
        [Event.resolveRequest headers, Event.authCall,
         Event.resolveRequest { headers with authorization := a.accessJwt }] auths := by
  have hauth : authenticate a = some (a.accessJwt, a.did) := by
    simp [authenticate, ha]
  constructor
  · rw [follow_user_loop_cons]
    simp [h401, hauth, follow_user_loop_cons, hn429, hn401, prependEvents_done]
  · rw [resolve_handle_cons]
    by_cases h200 : final.status_code = 200
    · simp [h401, hauth, resolve_handle_cons, hn429, hn401, h200, prependEvents_done]
    · simp [h401, hauth, resolve_handle_cons, hn429, hn401, h200, prependEvents_done]

/-- Witness for C3: the single-reauthentication equations at concrete
responses. -/
theorem C3_reauth_once_no_pause_witness :
    follow_user_loop (make_follow_payload "did1" "did:1" "ts") sampleHeaders
        [expired401, notFound400] (reauthOK :: []) =
      .done notFound400 { sampleHeaders with authorization := reauthOK.accessJwt }
        [Event.followRequest sampleHeaders (make_follow_payload "did1" "did:1" "ts"),
         Event.authCall,
         Event.followRequest { sampleHeaders with authorization := reauthOK.accessJwt }
           (make_follow_payload "did1" "did:1" "ts")] [] ∧
    resolve_handle sampleHeaders [expired401, notFound400] (reauthOK :: []) =
      .done (if notFound400.status_code = 200 then notFound400.did else none)
        { sampleHeaders with authorization := reauthOK.accessJwt }
        [Event.resolveRequest sampleHeaders, Event.authCall,
         Event.resolveRequest { sampleHeaders with authorization := reauthOK.accessJwt }] [] :=
  C3_reauth_once_no_pause expired401 notFound400 reauthOK
    (make_follow_payload "did1" "did:1" "ts") sampleHeaders [] rfl rfl
    (by decide) (by decide)

/-! ## C4 -/

/-- C4: the claim fails on the code. On a 401 the re-authentication
assignment `headers['Authorization'], _ = authenticate(...)` (source
lines 113 and 159) stores the raw fresh token — not the
`'Bearer <token>'` form used after initial authentication — and discards
the fresh did, so subsequent follow writes keep using the stale session
did. Concretely: after a 401 answered by a fresh session
`("tok2", "did9")`, the next request's Authorization header is `"tok2"`,
not `"Bearer tok2"`, and the follow payload's repo field is the original
`"did1"`, not `"did9"`. -/
theorem C4_reauth_raw_token_and_stale_did :
    process_item "did1" "ts" ⟨"Bearer tok1", "application/json"⟩ "alice"
        ⟨[expired401, ok200 "did:t"], [created200]⟩ [reauthOK] =
      .ok ⟨"alice", "alice.bsky.social", true, "Success"⟩ ⟨"tok2", "application/json"⟩ []
        [Event.resolveRequest ⟨"Bearer tok1", "application/json"⟩, Event.authCall,
         Event.resolveRequest ⟨"tok2", "application/json"⟩,
         Event.followRequest ⟨"tok2", "application/json"⟩
           (make_follow_payload "did1" "did:t" "ts")] ∧
    reauthOK.accessJwt = "tok2" ∧
    "tok2" ≠ "Bearer tok2" ∧
    (make_follow_payload "did1" "did:t" "ts").repo = "did1" ∧
    reauthOK.did = "did9" ∧
    "did1" ≠ "did9" := by decide

/-! ## C5 -/

/-- C5 counterexample: the claim's exact message text `"No matching
account"` is wrong. On input `["bob"]` with a resolution miss the run
appends the message `"No matching Bluesky account"`, which differs from
the claimed text. -/
theorem C5_counterexample_message_text :
    (Script.main authOK "ts" [("bob", ⟨[notFound400], []⟩)] []).outcomes =
      [⟨"bob", "", false, "No matching Bluesky account"⟩] ∧
    (Script.main authOK "ts" [("bob", ⟨[notFound400], []⟩)] []).outcomes ≠
      [⟨"bob", "", false, "No matching account"⟩] := by decide

/-- No follow-write request ever occurs among the events of the resolve
loop. -/
lemma resolve_handle_no_followRequest :
    ∀ (rs : List Response) (headers : Headers) (auths : List AuthResponse)
      (e : Event), e ∈ (resolve_handle headers rs auths).events →
      e.isFollowRequest = false := by
  intro rs
  induction rs with
  | nil =>
    intro headers auths e he
    simp [resolve_handle, LoopResult.events] at he
  | cons r rs ih =>
    intro headers auths e he
    rw [resolve_handle_cons] at he
    repeat' split at he
    all_goals
      first
        | (rw [events_prependEvents] at he
           rcases List.mem_append.mp he with h | h
           · simp at h
             rcases h with rfl | rfl <;> rfl
           · exact ih _ _ _ h)
        | (simp [LoopResult.events] at he
           rcases he with rfl | rfl <;> rfl)

/-- C5 (amended): for every source record whose derived identifier
resolves to a falsy value, the batch loop appends an OutcomeRecord with
`followed = false`, message exactly `"No matching Bluesky account"` (the
claim said `"No matching account"`), and an empty derived-account field,
and issues no follow request for that item. -/
theorem C5_unresolved_item_records_miss
    (sdid ts handle : String) (headers h1 : Headers) (orc : ItemOracle)
    (auths a1 : List AuthResponse) (v : Option String) (evs1 : List Event)
    (hres : resolve_handle headers orc.resolveResponses auths = .done v h1 evs1 a1)
    (hfalse : truthy v = false) :
    process_item sdid ts headers handle orc auths =
      .ok ⟨handle, "", false, "No matching Bluesky account"⟩ h1 a1 evs1 ∧
    ∀ e ∈ evs1, e.isFollowRequest = false := by
  constructor
  · unfold process_item
    rw [hres]
    simp [hfalse]
  · intro e he
    exact resolve_handle_no_followRequest orc.resolveResponses headers auths e
      (by rw [hres]; exact he)

/-- Witness for C5's amended theorem: a concrete miss. -/
theorem C5_unresolved_item_records_miss_witness :
    process_item "did1" "ts" sampleHeaders "bob" ⟨[notFound400], []⟩ [] =
      .ok ⟨"bob", "", false, "No matching Bluesky account"⟩ sampleHeaders []
        [Event.resolveRequest sampleHeaders] :=
  (C5_unresolved_item_records_miss "did1" "ts" "bob" sampleHeaders sampleHeaders
    ⟨[notFound400], []⟩ [] [] none [Event.resolveRequest sampleHeaders]
    (by decide) (by decide)).1

/-! ## C6 -/

/-- C6: the resolve loop always returns a value (modelled totally — no
exception path exists). When the final response is neither 429 nor 401:
a non-200 status yields `none` ("not found"); a 200 status yields the
body's did field, so in particular a 200 body lacking the did field also
yields `none`. -/
theorem C6_resolve_total_classification (headers : Headers) (r : Response)
    (rs : List Response) (auths : List AuthResponse)
    (hn429 : r.status_code ≠ 429) (hn401 : r.status_code ≠ 401) :
    (r.status_code ≠ 200 →
      resolve_handle headers (r :: rs) auths =
        .done none headers [Event.resolveRequest headers] auths) ∧
    (r.status_code = 200 →
      resolve_handle headers (r :: rs) auths =
        .done r.did headers [Event.resolveRequest headers] auths) ∧
    (r.status_code = 200 → r.did = none →
      resolve_handle headers (r :: rs) auths =
        .done none headers [Event.resolveRequest headers] auths) := by
  refine ⟨?_, ?_, ?_⟩
  · intro h200
    rw [resolve_handle_cons]
    simp [hn429, hn401, h200]
  · intro h200
    rw [resolve_handle_cons]
    simp [hn429, hn401, h200]
  · intro h200 hdid
    rw [resolve_handle_cons]
    simp [hn429, hn401, h200, hdid]

/-- Witness for C6: concrete final responses — a hard failure yields
`none`, a success carrying a did yields that did. -/
theorem C6_resolve_total_classification_witness :
    resolve_handle sampleHeaders [notFound400] [] =
      .done none sampleHeaders [Event.resolveRequest sampleHeaders] [] ∧
    resolve_handle sampleHeaders [ok200 "did:1"] [] =
      .done (ok200 "did:1").did sampleHeaders [Event.resolveRequest sampleHeaders] [] :=
  ⟨(C6_resolve_total_classification sampleHeaders notFound400 [] []
      (by decide) (by decide)).1 (by decide),
   (C6_resolve_total_classification sampleHeaders (ok200 "did:1") [] []
      (by decide) (by decide)).2.1 rfl⟩

/-! ## C7 -/

/-- C7: for a resolved item, the follow outcome is classified from the
final response of the follow write: a 200 status yields a record with
`followed = true` and message `"Success"`; any other final status yields
`followed = false` with the response body text as the message; in both
cases the record carries the source handle and the derived handle. -/
theorem C7_follow_outcome_classified (sdid ts handle d : String) (headers h1 h2 : Headers)
    (orc : ItemOracle) (auths a1 a2 : List AuthResponse) (evs1 evs2 : List Event)
    (resp : Response)
    (hres : resolve_handle headers orc.resolveResponses auths = .done (some d) h1 evs1 a1)
    (hd : d ≠ "")
    (hf : follow_user sdid d ts h1 orc.followResponses a1 = .done resp h2 evs2 a2) :
    (resp.status_code = 200 →
      process_item sdid ts headers handle orc auths =
        .ok ⟨handle, handle ++ DOMAIN_SUFFIX, true, "Success"⟩ h2 a2 (evs1 ++ evs2)) ∧
    (resp.status_code ≠ 200 →
      process_item sdid ts headers handle orc auths =
        .ok ⟨handle, handle ++ DOMAIN_SUFFIX, false, resp.text⟩ h2 a2 (evs1 ++ evs2)) := by
  have htr : truthy (some d) = true := by simp [truthy, hd]
  constructor <;> intro h200
  all_goals
    unfold process_item
    rw [hres]
    simp [htr, hf, h200]

/-- Witness for C7: a concrete resolved item whose follow write succeeds. -/
theorem C7_follow_outcome_classified_witness :
    process_item "did1" "ts" sampleHeaders "alice" ⟨[ok200 "did:1"], [created200]⟩ [] =
      .ok ⟨"alice", "alice" ++ DOMAIN_SUFFIX, true, "Success"⟩ sampleHeaders []
        ([Event.resolveRequest sampleHeaders] ++
         [Event.followRequest sampleHeaders (make_follow_payload "did1" "did:1" "ts")]) :=
  (C7_follow_outcome_classified "did1" "ts" "alice" "did:1" sampleHeaders sampleHeaders
    sampleHeaders ⟨[ok200 "did:1"], [created200]⟩ [] [] []
    [Event.resolveRequest sampleHeaders]
    [Event.followRequest sampleHeaders (make_follow_payload "did1" "did:1" "ts")]
    created200 (by decide) (by decide) (by decide)).1 rfl

/-! ## C8 -/

/-- C8: a non-200 initial authentication terminates the process with zero
outcome records; a 200 initial authentication yields a populated session
(token and own did from the response) and the run proceeds into the batch
loop with `'Bearer <token>'` headers, the session did, index 1, and empty
accumulators. -/
theorem C8_initial_auth_gates_run (initialAuth : AuthResponse) (ts : String)
    (items : List (String × ItemOracle)) (auths : List AuthResponse) :
    (initialAuth.status_code ≠ 200 →
      Script.main initialAuth ts items auths = .authFailed ∧
      (Script.main initialAuth ts items auths).outcomes = []) ∧
    (initialAuth.status_code = 200 →
      authenticate initialAuth = some (initialAuth.accessJwt, initialAuth.did) ∧
      Script.main initialAuth ts items auths =
        process_items initialAuth.did ts
          ⟨"Bearer " ++ initialAuth.accessJwt, "application/json"⟩ items auths 1 [] []) := by
  constructor
  · intro h
    have hauth : authenticate initialAuth = none := by simp [authenticate, h]
    have hmain : Script.main initialAuth ts items auths = .authFailed := by
      unfold Script.main
      rw [hauth]
    exact ⟨hmain, by rw [hmain]; rfl⟩
  · intro h
    have hauth : authenticate initialAuth = some (initialAuth.accessJwt, initialAuth.did) := by
      simp [authenticate, h]
    refine ⟨hauth, ?_⟩
    unfold Script.main
    rw [hauth]

/-- Witness for C8: the failing and succeeding branches at concrete
authentication responses. -/
theorem C8_initial_auth_gates_run_witness :
    (Script.main authBad "ts" [("alice", ⟨[ok200 "did:1"], [created200]⟩)] [] = .authFailed ∧
     (Script.main authBad "ts" [("alice", ⟨[ok200 "did:1"], [created200]⟩)] []).outcomes = []) ∧
    (authenticate authOK = some (authOK.accessJwt, authOK.did) ∧
     Script.main authOK "ts" [("alice", ⟨[ok200 "did:1"], [created200]⟩)] [] =
       process_items authOK.did "ts"
         ⟨"Bearer " ++ authOK.accessJwt, "application/json"⟩
         [("alice", ⟨[ok200 "did:1"], [created200]⟩)] [] 1 [] []) :=
  ⟨(C8_initial_auth_gates_run authBad "ts" [("alice", ⟨[ok200 "did:1"], [created200]⟩)] []).1
      (by decide),
   (C8_initial_auth_gates_run authOK "ts" [("alice", ⟨[ok200 "did:1"], [created200]⟩)] []).2
      rfl⟩

/-! ## C9 -/

/-- The number of long-pause sleeps in an event list. -/
def pause_count (evs : List Event) : Nat :=
  (evs.filter (fun e => decide (e = Event.sleep PAUSE_DURATION))).length

/-- C9: the pacing step after item `i` contains the long periodic-throttle
pause exactly when `i` is a multiple of `REQUEST_LIMIT` (default 3000),
unconditionally; item 3000 gets exactly one such pause, items 2999 and
3001 none; the fixed inter-item delay is present for every item; and each
batch-loop iteration appends exactly these pacing events after the item's
own events. -/
theorem C9_periodic_throttle_at_multiples :
    (∀ i, pause_count (pacing_events i) = if i % REQUEST_LIMIT = 0 then 1 else 0) ∧
    (∀ i, Event.sleep REQUEST_DELAY ∈ pacing_events i) ∧
    pause_count (pacing_events 3000) = 1 ∧
    pause_count (pacing_events 2999) = 0 ∧
    pause_count (pacing_events 3001) = 0 ∧
    (∀ (sdid ts : String) (headers : Headers) (handle : String) (orc : ItemOracle)
       (rest : List (String × ItemOracle)) (auths : List AuthResponse) (i : Nat)
       (results : List OutcomeRecord) (events : List Event) (rec : OutcomeRecord)
       (h1 : Headers) (a1 : List AuthResponse) (evs : List Event),
       process_item sdid ts headers handle orc auths = .ok rec h1 a1 evs →
       process_items sdid ts headers ((handle, orc) :: rest) auths i results events =
         process_items sdid ts h1 rest a1 (i + 1) (results ++ [rec])
           (events ++ evs ++ pacing_events i)) := by
  refine ⟨?_, ?_, by decide, by decide, by decide, ?_⟩
  · intro i
    by_cases h : i % REQUEST_LIMIT = 0 <;>
      simp [pacing_events, pause_count, h, REQUEST_DELAY, PAUSE_DURATION]
  · intro i
    by_cases h : i % REQUEST_LIMIT = 0 <;> simp [pacing_events, h]
  · intro sdid ts headers handle orc rest auths i results events rec h1 a1 evs hpi
    rw [process_items, hpi]

/-- Witness for C9: one batch-loop iteration at index 3000 appends the
item's events and the pacing events for index 3000. -/
theorem C9_periodic_throttle_at_multiples_witness :
    process_items "did1" "ts" sampleHeaders [("bob", ⟨[notFound400], []⟩)] [] 3000 [] [] =
      process_items "did1" "ts" sampleHeaders [] [] 3001
        [⟨"bob", "", false, "No matching Bluesky account"⟩]
        ([] ++ [Event.resolveRequest sampleHeaders] ++ pacing_events 3000) :=
  C9_periodic_throttle_at_multiples.2.2.2.2.2 "did1" "ts" sampleHeaders "bob"
    ⟨[notFound400], []⟩ [] [] 3000 [] []
    ⟨"bob", "", false, "No matching Bluesky account"⟩ sampleHeaders []
    [Event.resolveRequest sampleHeaders] (by decide)

/-! ## C10 -/

/-- C10: a resolution that returns the empty string as account id is
treated exactly like a miss — the miss record (empty derived-account
field, `followed = false`, message `"No matching Bluesky account"`) is
appended, the item's events contain no follow request, and the outcome is
independent of the follow-response oracle. -/
theorem C10_empty_string_did_is_miss (sdid ts handle : String) (headers h1 : Headers)
    (orc : ItemOracle) (auths a1 : List AuthResponse) (evs1 : List Event)
    (hres : resolve_handle headers orc.resolveResponses auths = .done (some "") h1 evs1 a1) :
    process_item sdid ts headers handle orc auths =
      .ok ⟨handle, "", false, "No matching Bluesky account"⟩ h1 a1 evs1 ∧
    (∀ e ∈ evs1, e.isFollowRequest = false) ∧
    (∀ followResponses2 : List Response,
      process_item sdid ts headers handle ⟨orc.resolveResponses, followResponses2⟩ auths =
        .ok ⟨handle, "", false, "No matching Bluesky account"⟩ h1 a1 evs1) := by
  refine ⟨?_, ?_, ?_⟩
  · unfold process_item
    rw [hres]
    simp [truthy]
  · intro e he
    exact resolve_handle_no_followRequest orc.resolveResponses headers auths e
      (by rw [hres]; exact he)
  · intro followResponses2
    unfold process_item
    have hproj : (⟨orc.resolveResponses, followResponses2⟩ : ItemOracle).resolveResponses =
        orc.resolveResponses := rfl
    rw [hproj, hres]
    simp [truthy]

/-- Witness for C10: a successful lookup whose body carries the empty
string as did. -/
theorem C10_empty_string_did_is_miss_witness :
    process_item "did1" "ts" sampleHeaders "carol" ⟨[⟨200, some "", "ok"⟩], [created200]⟩ [] =
      .ok ⟨"carol", "", false, "No matching Bluesky account"⟩ sampleHeaders []
        [Event.resolveRequest sampleHeaders] :=
  (C10_empty_string_did_is_miss "did1" "ts" "carol" sampleHeaders sampleHeaders
    ⟨[⟨200, some "", "ok"⟩], [created200]⟩ [] [] [Event.resolveRequest sampleHeaders]
    (by decide)).1
